import Mathlib

/-!
Verification development for the TwitCanva video-workflow canvas.

The definitions below are a shallow embedding of the node-graph canvas
state machine and the generation-orchestration pipeline:

* `NodeData`, `NodeStatus`, `NodeType` mirror `src/types.ts`;
* `handleGenerate` mirrors the dispatcher in `src/hooks/useGeneration.ts`,
  modelled as a function from the node list, the target id and the provider
  outcome to the list of actions (node updates and provider calls) the
  dispatcher performs, in order;
* `resolveUpstreamImages` / `resolveVideoInput` mirror the upstream-input
  resolution loops inside the dispatcher (the unbounded parent walk is
  given a fuel parameter; on the acyclic graphs the UI builds, a fuel of
  `nodes.length` is enough for the walk to run to completion);
* `generationStatus` / `checkStatus` mirror the recovery endpoint in
  `server/routes/generation.js` and the client hook `useGenerationRecovery`;
* `selectImageProvider` / `selectVideoProvider` mirror the model-prefix
  dispatch in `server/routes/generation.js`;
* `klingImageRoute` / `klingSubjectImageList` mirror the Kling image path
  in `server/routes/generation.js` and `server/services/kling.js`;
* `runExtractionPass` / `pruneAttempted` mirror `useVideoFrameExtraction`
  in `src/hooks/usePanelState.ts`;
* `saveWorkflow` mirrors `POST /api/workflows` in `server/index.js`.

JavaScript truthiness of optional strings (absent or empty both falsy) is
modelled by `truthy`.
-/

namespace TwitCanva

/-- Node types, from the `NodeType` enum in `src/types.ts`. -/
inductive NodeType where
  | text
  | image
  | video
  | audio
  | imageEditor
  | storyboard
  deriving DecidableEq, Repr

/-- Node statuses, from the `NodeStatus` enum in `src/types.ts`. -/
inductive NodeStatus where
  | idle
  | loading
  | success
  | error
  deriving DecidableEq, Repr

/-- A canvas node, from the `NodeData` interface in `src/types.ts`
(the fields relevant to generation orchestration). -/
structure NodeData where
  id : String
  type : NodeType
  prompt : String
  status : NodeStatus
  resultUrl : Option String := none
  lastFrame : Option String := none
  parentIds : List String := []
  errorMessage : Option String := none
  deriving DecidableEq, Repr

/-- JavaScript truthiness of an optional string: `undefined`/`null` and the
empty string are falsy, every other string is truthy. -/
def truthy : Option String → Bool
  | some s => s != ""
  | none => false

/-- The `nodes.find(n => n.id === id)` lookup used throughout the hooks. -/
def findNode (nodes : List NodeData) (id : String) : Option NodeData :=
  nodes.find? (fun n => n.id == id)

/-- A partial update object passed to `updateNode(id, updates)`. A field
value `none` means the key is absent from the update object; `some v`
means the key is present with value `v` (where `v` itself may be `none`,
i.e. the key is explicitly set to `undefined`, as the recovery hook does
with `errorMessage: undefined`). -/
structure NodeUpdate where
  status : Option NodeStatus := none
  resultUrl : Option (Option String) := none
  lastFrame : Option (Option String) := none
  errorMessage : Option (Option String) := none
  deriving DecidableEq, Repr

/-- The spread merge `{...n, ...updates}` performed by `updateNode`. -/
def applyUpdate (n : NodeData) (u : NodeUpdate) : NodeData :=
  { n with
    status := u.status.getD n.status
    resultUrl := u.resultUrl.getD n.resultUrl
    lastFrame := u.lastFrame.getD n.lastFrame
    errorMessage := u.errorMessage.getD n.errorMessage }

/-- `updateNode(id, updates)`: map over the node list, merging the update
into every node whose id matches. -/
def updateNodeList (nodes : List NodeData) (id : String) (u : NodeUpdate) : List NodeData :=
  nodes.map (fun n => if n.id == id then applyUpdate n u else n)

/-- An outbound provider request started by the dispatcher. -/
inductive ProviderCall where
  | imageGen (prompt : String) (images : List String)
  | videoGen (prompt : String) (image : Option String)
  deriving DecidableEq, Repr

/-- One observable action of the dispatcher: a node update or a provider
call, recorded in program order. -/
inductive GenAction where
  | update (id : String) (u : NodeUpdate)
  | call (c : ProviderCall)
  deriving DecidableEq, Repr

/-- A thrown provider error, as seen by the dispatcher's catch block:
`text` is `error.toString()` and `message` is `error.message`. -/
structure GenError where
  text : String
  message : String
  deriving DecidableEq, Repr

/-- Whether `pat` occurs at the start of `hay` (on character lists). -/
def headMatches (hay pat : List Char) : Bool :=
  hay.take pat.length == pat

/-- Whether `pat` occurs as a contiguous sublist of `hay`. -/
def hasSubList (hay pat : List Char) : Bool :=
  match hay with
  | [] => pat.isEmpty
  | _ :: t => headMatches hay pat || hasSubList t pat

/-- JavaScript `hay.includes(pat)` on strings. -/
def strIncludes (hay pat : String) : Bool :=
  hasSubList hay.toList pat.toList

/-- JavaScript `s.toLowerCase()` (ASCII case folding suffices here). -/
def lowerStr (s : String) : String :=
  String.mk (s.toList.map Char.toLower)

/-- The normalized auth-failure message surfaced by the dispatcher
(`src/hooks/useGeneration.ts`). -/
def permissionDeniedMsg : String := "Permission denied. Check API Key configuration."

/-- Error classification in the dispatcher's catch block
(`src/hooks/useGeneration.ts` lines 99-110): lowercase the error's string
form; if it contains "permission_denied" or "403", surface the fixed
message, otherwise surface `error.message` (falling back to
"Generation failed" when that is empty/absent). -/
def classifyError (e : GenError) : String :=
  let msg := lowerStr e.text
  if strIncludes msg "permission_denied" || strIncludes msg "403" then
    permissionDeniedMsg
  else if e.message == "" then "Generation failed"
  else e.message

/-- One chain of the upstream-image walk in the dispatcher's image branch
(`src/hooks/useGeneration.ts` lines 41-54): starting from a parent id,
follow `parentIds[0]` upward; push the first truthy `resultUrl` found and
stop; stop silently at the root or at a missing node; the accumulated
image list is also length-gated at 14 ("Gemini 3 Pro limit"). The JS
`while` loop is given explicit fuel. -/
def chainWalk (nodes : List NodeData) : Nat → Option String → List String → List String
  | 0, _, acc => acc
  | _ + 1, none, acc => acc
  | fuel + 1, some cid, acc =>
    if acc.length < 14 then
      match findNode nodes cid with
      | none => acc
      | some parent =>
        match parent.resultUrl with
        | some url =>
          if url != "" then acc ++ [url]
          else chainWalk nodes fuel parent.parentIds.head? acc
        | none => chainWalk nodes fuel parent.parentIds.head? acc
    else acc

/-- The full upstream-image resolution of the dispatcher's image branch:
one chain walk per entry of `parentIds`, in order, into a shared
accumulator. -/
def resolveUpstreamImages (nodes : List NodeData) (node : NodeData) (fuel : Nat) : List String :=
  node.parentIds.foldl (fun acc pid => chainWalk nodes fuel (some pid) acc) []

/-- Modelled from the spec's description of `resolveUpstreamImages`
(section 4.1): the first ancestor on a parent chain that has a (truthy)
`resultUrl`, or nothing if the walk reaches the root first. Used as the
specification side of the refinement theorem for C3. -/
def specFirstAncestorResult (nodes : List NodeData) : Nat → Option String → Option String
  | 0, _ => none
  | _ + 1, none => none
  | fuel + 1, some cid =>
    match findNode nodes cid with
    | none => none
    | some parent =>
      match parent.resultUrl with
      | some url =>
        if url != "" then some url
        else specFirstAncestorResult nodes fuel parent.parentIds.head?
      | none => specFirstAncestorResult nodes fuel parent.parentIds.head?

/-- Video-input resolution in the dispatcher's video branch
(`src/hooks/useGeneration.ts` lines 69-80): look up the first parent; if
it is a Video node with a truthy `lastFrame`, use that; otherwise fall
back to its truthy `resultUrl`; otherwise no input. -/
def resolveVideoInput (nodes : List NodeData) (node : NodeData) : Option String :=
  match node.parentIds.head? with
  | none => none
  | some pid =>
    match findNode nodes pid with
    | none => none
    | some parent =>
      if parent.type == NodeType.video && truthy parent.lastFrame then parent.lastFrame
      else if truthy parent.resultUrl then parent.resultUrl
      else none

/-- The `{ status: LOADING }` update issued at the start of an accepted
generation (`src/hooks/useGeneration.ts` line 32). Note it touches no
other field. -/
def loadingUpdate : NodeUpdate := { status := some NodeStatus.loading }

/-- The dispatcher `handleGenerate` of `src/hooks/useGeneration.ts`,
as the ordered list of actions it performs. `outcome` stands for the
result of the whole awaited provider interaction (`Except.error` covers
any thrown exception: network error, timeout, malformed response), and
`extractedFrame` for the result of `extractVideoLastFrame` on the video
path. A missing node or an empty prompt makes the call a no-op; otherwise
the Loading update is issued first, before any provider call. -/
def handleGenerate (nodes : List NodeData) (id : String)
    (outcome : Except GenError String) (extractedFrame : String) : List GenAction :=
  match findNode nodes id with
  | none => []
  | some node =>
    if node.prompt == "" then []
    else
      GenAction.update id loadingUpdate ::
      (if node.type == NodeType.image || node.type == NodeType.imageEditor then
        GenAction.call (ProviderCall.imageGen node.prompt (resolveUpstreamImages nodes node nodes.length)) ::
        (match outcome with
         | Except.ok url =>
           [GenAction.update id { status := some NodeStatus.success, resultUrl := some (some url) }]
         | Except.error e =>
           [GenAction.update id
             { status := some NodeStatus.error, errorMessage := some (some (classifyError e)) }])
      else if node.type == NodeType.video then
        GenAction.call (ProviderCall.videoGen node.prompt (resolveVideoInput nodes node)) ::
        (match outcome with
         | Except.ok url =>
           [GenAction.update id
             { status := some NodeStatus.success, resultUrl := some (some url)
               lastFrame := some (some extractedFrame) }]
         | Except.error e =>
           [GenAction.update id
             { status := some NodeStatus.error, errorMessage := some (some (classifyError e)) }])
      else [])

/-- Effect of one dispatcher action on the node list (provider calls do
not mutate the graph). -/
def applyAction (nodes : List NodeData) : GenAction → List NodeData
  | GenAction.update id u => updateNodeList nodes id u
  | GenAction.call _ => nodes

/-- Effect of a whole action trace on the node list. -/
def applyActions (nodes : List NodeData) (acts : List GenAction) : List NodeData :=
  acts.foldl applyAction nodes

/-- The provider calls contained in a trace, in order. -/
def callsOf (acts : List GenAction) : List ProviderCall :=
  acts.filterMap (fun a =>
    match a with
    | GenAction.call c => some c
    | GenAction.update _ _ => none)

/-- First value bound to a string key in an association list (the
filesystem keyed by file name, metadata sidecars keyed by node id). -/
def assocFind {β : Type} (entries : List (String × β)) (key : String) : Option β :=
  match entries with
  | [] => none
  | (k, v) :: t => if k == key then some v else assocFind t key

/-- Response of `GET /api/generation-status/:nodeId`
(`server/routes/generation.js` lines 323-347). -/
structure StatusResponse where
  status : String
  resultUrl : Option String := none
  type : Option String := none
  deriving DecidableEq, Repr

/-- The status-recovery endpoint: `imagesMeta` and `videosMeta` are the
parsed metadata sidecars on disk, keyed by node id, each holding the
persisted `filename`. Images are checked first, then videos; a hit
reports success with the library URL, otherwise the job is pending. -/
def generationStatus (imagesMeta videosMeta : List (String × String)) (nodeId : String) :
    StatusResponse :=
  match assocFind imagesMeta nodeId with
  | some filename =>
    { status := "success", resultUrl := some ("/library/images/" ++ filename), type := some "image" }
  | none =>
    match assocFind videosMeta nodeId with
    | some filename =>
      { status := "success", resultUrl := some ("/library/videos/" ++ filename), type := some "video" }
    | none => { status := "pending" }

/-- The client-side recovery step `checkStatus` of `useGenerationRecovery`
(`src/hooks/useCanvasNavigation.ts`): on a success response with a truthy
result URL, mark the node Success with that URL and clear the error;
otherwise leave the graph untouched. -/
def checkStatus (nodes : List NodeData) (nodeId : String) (resp : StatusResponse) :
    List NodeData :=
  if resp.status == "success" && truthy resp.resultUrl then
    updateNodeList nodes nodeId
      { status := some NodeStatus.success, resultUrl := some resp.resultUrl
        errorMessage := some none }
  else nodes

/-- The ids the recovery loop polls: exactly the nodes currently Loading
(`useGenerationRecovery` filters `status === LOADING` each effect run). -/
def pollingIds (nodes : List NodeData) : List String :=
  (nodes.filter (fun n => n.status == NodeStatus.loading)).map (fun n => n.id)

/-- Generation providers reachable from the server routes. -/
inductive Provider where
  | kling
  | openai
  | hailuo
  | gemini
  | fal
  deriving DecidableEq, Repr

/-- Provider selection of `POST /api/generate-image`
(`server/routes/generation.js` lines 29-30): `kling-` prefixed models go
to Kling, `gpt-image-` prefixed models to OpenAI, everything else
(including an absent model id) to Gemini. -/
def selectImageProvider (imageModel : Option String) : Provider :=
  match imageModel with
  | none => Provider.gemini
  | some m =>
    if headMatches m.toList "kling-".toList then Provider.kling
    else if headMatches m.toList "gpt-image-".toList then Provider.openai
    else Provider.gemini

/-- Provider selection of `POST /api/generate-video`
(`server/routes/generation.js` lines 174-183): `kling-` prefixed models go
to Kling, except that `kling-v2-6` with a truthy motion reference is
routed to the fal.ai motion-control service; `hailuo-` prefixed models go
to Hailuo; everything else to Veo (Gemini). -/
def selectVideoProvider (videoModel : Option String) (motionReferenceUrl : Option String) :
    Provider :=
  match videoModel with
  | none => Provider.gemini
  | some m =>
    if headMatches m.toList "kling-".toList then
      if m == "kling-v2-6" && truthy motionReferenceUrl then Provider.fal
      else Provider.kling
    else if headMatches m.toList "hailuo-".toList then Provider.hailuo
    else Provider.gemini

/-- The Kling image call issued by `POST /api/generate-image`: either one
multi-image task or one single-image (or text-to-image) task. -/
inductive KlingImageCall where
  | multi (subjectImages : List String)
  | single (imageBase64 : Option (List String))
  deriving DecidableEq, Repr

/-- The Kling branch of `POST /api/generate-image`
(`server/routes/generation.js` lines 52-77): when more than one resolved
image is supplied, a single call to the multi-image-to-image task is made
with all of them; otherwise the standard single-image path is used. -/
def klingImageRoute (resolvedImages : Option (List String)) : KlingImageCall :=
  match resolvedImages with
  | some imgs =>
    if imgs.length > 1 then KlingImageCall.multi imgs
    else KlingImageCall.single (some imgs)
  | none => KlingImageCall.single none

/-- The subject image list built by `generateKlingMultiImage`
(`server/services/kling.js` line 384): `subjectImages.slice(0, 4)`. -/
def klingSubjectImageList (subjectImages : List String) : List String :=
  subjectImages.take 4

/-- Candidate filter of `useVideoFrameExtraction`
(`src/hooks/usePanelState.ts` lines 166-172): Video nodes with a Success
status and a result but no last frame, not yet in the attempted set. -/
def needsExtraction (attempted : List String) (n : NodeData) : Bool :=
  n.type == NodeType.video && n.status == NodeStatus.success &&
    n.resultUrl.isSome && n.lastFrame.isNone && !(attempted.contains n.id)

/-- The video nodes an extraction effect run will process. -/
def extractionCandidates (nodes : List NodeData) (attempted : List String) : List NodeData :=
  nodes.filter (needsExtraction attempted)

/-- Processing of one candidate in `useVideoFrameExtraction` (lines
179-192): decode the candidate's video (`extract` maps its result URL to
`some frame` on success and `none` on failure); success stores the frame
via `updateNode`, failure changes nothing — in particular it neither
touches the node nor removes the id from the attempted set. -/
def extractionStep (extract : String → Option String) (ns : List NodeData) (c : NodeData) :
    List NodeData :=
  match c.resultUrl with
  | some url =>
    match extract url with
    | some frame => updateNodeList ns c.id { lastFrame := some (some frame) }
    | none => ns
  | none => ns

/-- Composition of one effect run: attempted set grows by all candidate
ids, then each candidate is processed by `extractionStep`. -/
def runExtractionPass (nodes : List NodeData) (attempted : List String)
    (extract : String → Option String) : List NodeData × List String :=
  let cands := extractionCandidates nodes attempted
  ((cands.foldl (extractionStep extract) nodes), attempted ++ cands.map (fun n => n.id))

/-- The pruning effect of `useVideoFrameExtraction` (lines 196-206): keep
only the attempted ids that still name a node in the graph. -/
def pruneAttempted (nodes : List NodeData) (attempted : List String) : List String :=
  attempted.filter (fun id => nodes.any (fun n => n.id == id))

/-- A workflow record, from `POST /api/workflows` in `server/index.js`
(the fields the save path manipulates; `nodes`/`groups`/`title` ride along
unchanged and are represented by `title`). -/
structure Workflow where
  id : Option String := none
  title : String := ""
  coverUrl : Option String := none
  createdAt : Option String := none
  updatedAt : Option String := none
  deriving DecidableEq, Repr

/-- Write (create or overwrite) the record file `id.json` in the
workflows directory, modelled as an association list keyed by id. -/
def storeInsert : List (String × Workflow) → String → Workflow → List (String × Workflow)
  | [], id, wf => [(id, wf)]
  | (k, v) :: t, id, wf => if k == id then (id, wf) :: t else (k, v) :: storeInsert t id wf

/-- `POST /api/workflows` (`server/index.js` lines 240-273): assign a
fresh id when the payload has none (falsy), stamp `updatedAt` and default
`createdAt`; then, if a record with that id already exists on disk and has
a truthy `coverUrl`, copy that cover over the payload's, and write the
file. `now` is the current ISO timestamp and `newId` the generated UUID. -/
def saveWorkflow (store : List (String × Workflow)) (wf : Workflow) (now newId : String) :
    List (String × Workflow) :=
  let id := match wf.id with
    | some i => if i != "" then i else newId
    | none => newId
  let createdAt := match wf.createdAt with
    | some c => if c != "" then c else now
    | none => now
  let base : Workflow := { wf with id := some id, updatedAt := some now, createdAt := some createdAt }
  let final : Workflow :=
    match assocFind store id with
    | some existing =>
      match existing.coverUrl with
      | some c => if c != "" then { base with coverUrl := some c } else base
      | none => base
    | none => base
  storeInsert store id final

/-! Concrete instances used by counterexamples and witnesses. -/

/-- A node currently Loading with a non-empty prompt. -/
def c1node : NodeData :=
  { id := "n1", type := NodeType.image, prompt := "p", status := NodeStatus.loading }

/-- A Loading image node about to receive a provider failure. -/
def c2xnode : NodeData :=
  { id := "x2", type := NodeType.image, prompt := "p", status := NodeStatus.loading }

/-- A provider error whose text matches the spec's entity-not-found
pattern but none of the patterns the code tests for. -/
def c2xerr : GenError :=
  { text := "Error: Requested entity was not found"
    message := "Requested entity was not found" }

/-- A Loading image node for the 403 scenario. -/
def c2wnode : NodeData :=
  { id := "w2", type := NodeType.image, prompt := "p", status := NodeStatus.loading }

/-- A provider error containing "403". -/
def c2werr : GenError :=
  { text := "Error: 403 Forbidden", message := "403 Forbidden" }

/-- Chain head: an Image node with a result. -/
def c3A : NodeData :=
  { id := "A", type := NodeType.image, prompt := "", status := NodeStatus.success
    resultUrl := some "X" }

/-- Interposed Text node without a result. -/
def c3B : NodeData :=
  { id := "B", type := NodeType.text, prompt := "p", status := NodeStatus.idle
    parentIds := ["A"] }

/-- Chain tail: the Image node whose upstream images are resolved. -/
def c3C : NodeData :=
  { id := "C", type := NodeType.image, prompt := "q", status := NodeStatus.idle
    parentIds := ["B"] }

/-- A Video parent with both a result URL and an extracted last frame. -/
def c4A : NodeData :=
  { id := "A", type := NodeType.video, prompt := "", status := NodeStatus.success
    resultUrl := some "R", lastFrame := some "F" }

/-- A Video child chained onto `c4A`. -/
def c4B : NodeData :=
  { id := "B", type := NodeType.video, prompt := "p", status := NodeStatus.idle
    parentIds := ["A"] }

/-- One image metadata sidecar on disk, keyed by node id. -/
def c5meta : List (String × String) := [("n5", "n5.png")]

/-- A Loading node with a stale error, waiting for recovery. -/
def c5node : NodeData :=
  { id := "n5", type := NodeType.image, prompt := "p", status := NodeStatus.loading
    errorMessage := some "boom" }

/-- A completed Video node with no extracted last frame yet. -/
def c8node : NodeData :=
  { id := "v8", type := NodeType.video, prompt := "p", status := NodeStatus.success
    resultUrl := some "/library/videos/v8.mp4" }

/-- First save payload, carrying a cover. -/
def c9wfX : Workflow :=
  { id := some "w9", title := "t", coverUrl := some "/library/assets/x.png" }

/-- The store after the first save of `c9wfX`. -/
def c9store1 : List (String × Workflow) := saveWorkflow [] c9wfX "t0" "u0"

/-- The record persisted by the first save. -/
def c9stored : Workflow :=
  { id := some "w9", title := "t", coverUrl := some "/library/assets/x.png"
    createdAt := some "t0", updatedAt := some "t0" }

/-- Second save payload, explicitly supplying a different cover. -/
def c9wfY : Workflow :=
  { id := some "w9", title := "t", coverUrl := some "/library/assets/y.png" }

/-- Second save payload, supplying no cover. -/
def c9wfNone : Workflow :=
  { id := some "w9", title := "t2", coverUrl := none }

/-- An Error node with a stale error message about to regenerate. -/
def c10node : NodeData :=
  { id := "n10", type := NodeType.image, prompt := "p", status := NodeStatus.error
    errorMessage := some "old failure" }

/-- Another Error node with a stale error message, for the witness. -/
def c10wnode : NodeData :=
  { id := "m10", type := NodeType.image, prompt := "p", status := NodeStatus.error
    errorMessage := some "stale" }

/-! Shared helper lemmas about the embedding. -/

theorem applyUpdate_id (n : NodeData) (u : NodeUpdate) : (applyUpdate n u).id = n.id := rfl

theorem updateNodeList_cons (x : NodeData) (xs : List NodeData) (id : String) (u : NodeUpdate) :
    updateNodeList (x :: xs) id u =
      (if x.id == id then applyUpdate x u else x) :: updateNodeList xs id u := rfl

theorem findNode_updateNodeList (nodes : List NodeData) (id : String) (u : NodeUpdate) :
    findNode (updateNodeList nodes id u) id =
      (findNode nodes id).map (fun n => applyUpdate n u) := by
  induction nodes with
  | nil => rfl
  | cons n t ih =>
    rw [updateNodeList_cons]
    by_cases h : (n.id == id) = true
    · have h2 : ((applyUpdate n u).id == id) = true := by rw [applyUpdate_id]; exact h
      rw [if_pos h]
      unfold findNode
      simp [List.find?, h, h2]
    · have h' : (n.id == id) = false := by simpa using h
      rw [if_neg h]
      unfold findNode
      simp only [List.find?, h']
      exact ih

theorem applyUpdate_applyUpdate (n : NodeData) (u : NodeUpdate) :
    applyUpdate (applyUpdate n u) u = applyUpdate n u := by
  cases u with
  | mk s r l e => cases s <;> cases r <;> cases l <;> cases e <;> rfl

theorem updateNodeList_idem (nodes : List NodeData) (id : String) (u : NodeUpdate) :
    updateNodeList (updateNodeList nodes id u) id u = updateNodeList nodes id u := by
  induction nodes with
  | nil => rfl
  | cons n t ih =>
    rw [updateNodeList_cons, updateNodeList_cons, ih]
    by_cases h : (n.id == id) = true
    · rw [if_pos h]
      have h2 : ((applyUpdate n u).id == id) = true := by rw [applyUpdate_id]; exact h
      rw [if_pos h2, applyUpdate_applyUpdate]
    · rw [if_neg h, if_neg h]

theorem map_status_updateNodeList (nodes : List NodeData) (id : String) (u : NodeUpdate)
    (hu : u.status = none) :
    (updateNodeList nodes id u).map (fun n => n.status) = nodes.map (fun n => n.status) := by
  induction nodes with
  | nil => rfl
  | cons n t ih =>
    rw [updateNodeList_cons, List.map_cons, List.map_cons, ih]
    by_cases h : (n.id == id) = true
    · rw [if_pos h]
      simp [applyUpdate, hu]
    · rw [if_neg h]

theorem map_status_extraction_foldl (extract : String → Option String) (cands : List NodeData) :
    ∀ ns : List NodeData,
      (cands.foldl (extractionStep extract) ns).map (fun n => n.status) =
        ns.map (fun n => n.status) := by
  induction cands with
  | nil => intro ns; rfl
  | cons c rest ih =>
    intro ns
    rw [List.foldl_cons, ih]
    cases hres : c.resultUrl with
    | none => unfold extractionStep; simp [hres]
    | some url =>
      cases hext : extract url with
      | none => unfold extractionStep; simp [hres, hext]
      | some frame =>
        unfold extractionStep
        simp only [hres, hext]
        exact map_status_updateNodeList ns c.id { lastFrame := some (some frame) } rfl

theorem assocFind_storeInsert (store : List (String × Workflow)) (id : String) (wf : Workflow) :
    assocFind (storeInsert store id wf) id = some wf := by
  induction store with
  | nil => simp [storeInsert, assocFind]
  | cons p t ih =>
    obtain ⟨k, v⟩ := p
    by_cases h : (k == id) = true
    · simp [storeInsert, h, assocFind]
    · simp [storeInsert, h, assocFind, ih]

theorem chainWalk_eq (nodes : List NodeData) :
    ∀ (fuel : Nat) (cid : Option String) (acc : List String),
      chainWalk nodes fuel cid acc =
        if acc.length < 14 then
          acc ++ (specFirstAncestorResult nodes fuel cid).toList
        else acc := by
  intro fuel
  induction fuel with
  | zero =>
    intro cid acc
    simp [chainWalk, specFirstAncestorResult]
  | succ f ih =>
    intro cid acc
    cases cid with
    | none => simp [chainWalk, specFirstAncestorResult]
    | some c =>
      simp only [chainWalk, specFirstAncestorResult]
      by_cases hlen : acc.length < 14
      · rw [if_pos hlen, if_pos hlen]
        cases hf : findNode nodes c with
        | none => simp [hf]
        | some parent =>
          simp only [hf]
          cases hres : parent.resultUrl with
          | none =>
            simp only [hres]
            rw [ih, if_pos hlen]
          | some url =>
            simp only [hres]
            by_cases hurl : (url != "") = true
            · simp [hurl]
            · simp only [hurl, Bool.false_eq_true, if_false]
              rw [ih, if_pos hlen]
      · rw [if_neg hlen, if_neg hlen]

theorem foldl_chainWalk (nodes : List NodeData) (fuel : Nat) :
    ∀ (pids : List String) (acc : List String),
      pids.foldl (fun a pid => chainWalk nodes fuel (some pid) a) acc =
        acc ++ (pids.filterMap
          (fun pid => specFirstAncestorResult nodes fuel (some pid))).take (14 - acc.length) := by
  intro pids
  induction pids with
  | nil => intro acc; simp
  | cons pid rest ih =>
    intro acc
    rw [List.foldl_cons, List.filterMap_cons, chainWalk_eq nodes]
    by_cases hlen : acc.length < 14
    · rw [if_pos hlen]
      cases hcr : specFirstAncestorResult nodes fuel (some pid) with
      | none =>
        simp only [hcr, Option.toList, List.append_nil]
        rw [ih]
      | some u =>
        simp only [hcr, Option.toList]
        rw [ih]
        have hsub : 14 - acc.length = (14 - (acc ++ [u]).length) + 1 := by
          simp only [List.length_append, List.length_cons, List.length_nil]
          omega
        rw [hsub, List.take_succ_cons, List.append_assoc]
        rfl
    · rw [if_neg hlen, ih]
      have h0 : 14 - acc.length = 0 := by omega
      rw [h0]
      simp

/-! Claim theorems. -/

/-- C1 counterexample: the claim says no second `generate(N)` call is
dispatched while N is Loading, but `handleGenerate` performs no status
check at all — called on a node that is already Loading (with a
non-empty prompt) it still dispatches a provider request. -/
theorem c1_loading_gate_counterexample :
    c1node.status = NodeStatus.loading ∧
    callsOf (handleGenerate [c1node] "n1" (Except.ok "u") "") =
      [ProviderCall.imageGen "p" []] := by
  exact ⟨rfl, by decide⟩

/-- C1 (amended): when a generate request is accepted the dispatcher sets
status = Loading synchronously, as the very first action, before any
provider call; however there is no Loading re-entry gate — the request is
a no-op exactly when the node is missing or its prompt is empty, so a
second `generate(N)` while N is Loading does dispatch a second provider
request. -/
theorem c1_dispatch_amended (nodes : List NodeData) (id : String)
    (outcome : Except GenError String) (frame : String) :
    (handleGenerate nodes id outcome frame = [] ↔
      ∀ n, findNode nodes id = some n → n.prompt = "") ∧
    (∀ n, findNode nodes id = some n → n.prompt ≠ "" →
      ∃ rest, handleGenerate nodes id outcome frame =
        GenAction.update id loadingUpdate :: rest) := by
  cases hf : findNode nodes id with
  | none =>
    refine ⟨⟨fun _ n hn => ?_, fun _ => ?_⟩, fun n hn => ?_⟩
    · cases hn
    · unfold handleGenerate; rw [hf]
    · cases hn
  | some node =>
    by_cases hp : (node.prompt == "") = true
    · have hpe : node.prompt = "" := by simpa using hp
      refine ⟨⟨fun _ n hn => ?_, fun _ => ?_⟩, fun n hn hne => ?_⟩
      · injection hn with hnn
        rw [← hnn]; exact hpe
      · unfold handleGenerate
        rw [hf]
        simp [hp]
      · injection hn with hnn
        rw [← hnn] at hne
        exact absurd hpe hne
    · have hp' : (node.prompt == "") = false := by simpa using hp
      constructor
      · constructor
        · intro hemp
          exfalso
          unfold handleGenerate at hemp
          rw [hf] at hemp
          simp [hp'] at hemp
        · intro hall
          exfalso
          have hpe := hall node rfl
          rw [hpe] at hp'
          simp at hp'
      · intro n hn hne
        unfold handleGenerate
        rw [hf]
        simp only [hp', Bool.false_eq_true, if_false]
        exact ⟨_, rfl⟩

/-- C1 witness: the amended theorem at a concrete Loading node. -/
theorem c1_dispatch_amended_witness :
    ∃ rest, handleGenerate [c1node] "n1" (Except.ok "u") "" =
      GenAction.update "n1" loadingUpdate :: rest :=
  (c1_dispatch_amended [c1node] "n1" (Except.ok "u") "").2 c1node (by decide) (by decide)

/-- C2 counterexample: a provider error matching the spec's
entity-not-found pattern is NOT normalized — the code only tests for
"permission_denied" and "403", so the raw provider message is surfaced
instead of the fixed permission-denied message. -/
theorem c2_error_pattern_counterexample :
    findNode (applyActions [c2xnode] (handleGenerate [c2xnode] "x2" (Except.error c2xerr) ""))
        "x2" =
      some { c2xnode with status := NodeStatus.error
                          errorMessage := some "Requested entity was not found" } ∧
    ("Requested entity was not found" : String) ≠ permissionDeniedMsg := by
  exact ⟨by decide, by decide⟩

/-- C2 (amended): every provider failure on an accepted Image/ImageEditor/
Video generation drives the node Loading → Error (never stuck in
Loading), with errorMessage exactly the fixed message
"Permission denied. Check API Key configuration." when the lowercased
error text contains "permission_denied" or "403", and the raw provider
message otherwise (entity-not-found is not among the tested patterns). -/
theorem c2_failure_transition_amended (nodes : List NodeData) (id : String) (e : GenError)
    (frame : String) (n : NodeData)
    (h1 : findNode nodes id = some n) (h2 : n.prompt ≠ "")
    (h3 : n.type = NodeType.image ∨ n.type = NodeType.imageEditor ∨ n.type = NodeType.video) :
    (∃ c, handleGenerate nodes id (Except.error e) frame =
        [GenAction.update id loadingUpdate, GenAction.call c,
         GenAction.update id
           { status := some NodeStatus.error
             errorMessage := some (some (classifyError e)) }]) ∧
    (∃ n2, findNode (applyActions nodes (handleGenerate nodes id (Except.error e) frame)) id
        = some n2 ∧ n2.status = NodeStatus.error ∧ n2.errorMessage = some (classifyError e)) ∧
    ((strIncludes (lowerStr e.text) "permission_denied" = true ∨
        strIncludes (lowerStr e.text) "403" = true) →
      classifyError e = permissionDeniedMsg) ∧
    ((strIncludes (lowerStr e.text) "permission_denied" = false ∧
        strIncludes (lowerStr e.text) "403" = false ∧ e.message ≠ "") →
      classifyError e = e.message) := by
  have hp' : (n.prompt == "") = false := by simpa using h2
  have htrace : ∃ c, handleGenerate nodes id (Except.error e) frame =
      [GenAction.update id loadingUpdate, GenAction.call c,
       GenAction.update id
         { status := some NodeStatus.error
           errorMessage := some (some (classifyError e)) }] := by
    unfold handleGenerate
    rw [h1]
    rcases h3 with h3 | h3 | h3
    · exact ⟨ProviderCall.imageGen n.prompt (resolveUpstreamImages nodes n nodes.length),
        by simp [hp', h3]⟩
    · exact ⟨ProviderCall.imageGen n.prompt (resolveUpstreamImages nodes n nodes.length),
        by simp [hp', h3]⟩
    · exact ⟨ProviderCall.videoGen n.prompt (resolveVideoInput nodes n),
        by simp [hp', h3]⟩
  obtain ⟨c0, htr⟩ := htrace
  refine ⟨⟨c0, htr⟩, ?_, ?_, ?_⟩
  · rw [htr]
    show ∃ n2, findNode
        (updateNodeList (updateNodeList nodes id loadingUpdate) id
          { status := some NodeStatus.error
            errorMessage := some (some (classifyError e)) }) id = some n2 ∧ _
    rw [findNode_updateNodeList, findNode_updateNodeList, h1]
    exact ⟨_, rfl, rfl, rfl⟩
  · intro hpat
    rcases hpat with hA | hB
    · simp [classifyError, hA]
    · simp [classifyError, hB]
  · intro ⟨hA, hB, hm⟩
    simp [classifyError, hA, hB, hm]

/-- C2 witness: the amended theorem at a concrete node receiving a
"403" provider error — the surfaced message is exactly the fixed one. -/
theorem c2_failure_transition_witness :
    ∃ n2, findNode (applyActions [c2wnode]
        (handleGenerate [c2wnode] "w2" (Except.error c2werr) "")) "w2" = some n2 ∧
      n2.status = NodeStatus.error ∧ n2.errorMessage = some permissionDeniedMsg := by
  have h := c2_failure_transition_amended [c2wnode] "w2" c2werr "" c2wnode
    (by decide) (by decide) (Or.inl rfl)
  have hc : classifyError c2werr = permissionDeniedMsg := h.2.2.1 (Or.inr (by decide))
  obtain ⟨n2, hfind, hstat, herr⟩ := h.2.1
  exact ⟨n2, hfind, hstat, by rw [herr, hc]⟩

/-- C3: upstream-image resolution equals, chain by chain, the first
ancestor with a (truthy) resultUrl — in `parentIds` order, capped at 14
images; in particular the chain A(Image, result=X) → B(Text) → C(Image)
resolves C's upstream images to exactly [X]. -/
theorem c3_upstream_resolution :
    (∀ (nodes : List NodeData) (node : NodeData) (fuel : Nat),
      resolveUpstreamImages nodes node fuel =
        (node.parentIds.filterMap
          (fun pid => specFirstAncestorResult nodes fuel (some pid))).take 14) ∧
    resolveUpstreamImages [c3A, c3B, c3C] c3C 3 = ["X"] := by
  constructor
  · intro nodes node fuel
    unfold resolveUpstreamImages
    rw [foldl_chainWalk]
    simp
  · decide

/-- C4: video-input resolution prefers the direct parent's lastFrame when
that parent is a Video node with a truthy lastFrame, and falls back to
the parent's (truthy) resultUrl otherwise. -/
theorem c4_video_input (nodes : List NodeData) (node : NodeData) (pid : String)
    (parent : NodeData)
    (h1 : node.parentIds.head? = some pid) (h2 : findNode nodes pid = some parent) :
    ((parent.type == NodeType.video && truthy parent.lastFrame) = true →
      resolveVideoInput nodes node = parent.lastFrame) ∧
    ((parent.type == NodeType.video && truthy parent.lastFrame) = false →
      resolveVideoInput nodes node =
        if truthy parent.resultUrl then parent.resultUrl else none) := by
  constructor
  · intro h
    unfold resolveVideoInput
    rw [h1]
    simp [h2, h]
  · intro h
    unfold resolveVideoInput
    rw [h1]
    simp [h2, h]

/-- C4 witness: for A(Video, lastFrame=F, resultUrl=R) → B(Video), the
resolved input of B is F, not R. -/
theorem c4_video_input_witness :
    resolveVideoInput [c4A, c4B] c4B = some "F" ∧
    resolveVideoInput [c4A, c4B] c4B ≠ some "R" := by
  have h := (c4_video_input [c4A, c4B] c4B "A" c4A (by decide) (by decide)).1 (by decide)
  constructor
  · rw [h]; rfl
  · rw [h]; decide

/-- C5: the status endpoint reports success (with the persisted library
URL from the sidecar) iff a metadata sidecar exists for the node id, and
pending otherwise; the client transition on a success response marks the
Loading node Success with that URL and clears its error; running the
check again is idempotent, and a node marked Success leaves the polling
set (which contains only Loading nodes). -/
theorem c5_status_recovery :
    (∀ (im vm : List (String × String)) (nid : String),
      ((generationStatus im vm nid).status = "success" ↔
        (assocFind im nid).isSome ∨ (assocFind vm nid).isSome)) ∧
    (∀ (im vm : List (String × String)) (nid f : String),
      assocFind im nid = some f →
        generationStatus im vm nid =
          { status := "success", resultUrl := some ("/library/images/" ++ f)
            type := some "image" }) ∧
    (∀ (im vm : List (String × String)) (nid f : String),
      assocFind im nid = none → assocFind vm nid = some f →
        generationStatus im vm nid =
          { status := "success", resultUrl := some ("/library/videos/" ++ f)
            type := some "video" }) ∧
    (∀ (im vm : List (String × String)) (nid : String),
      assocFind im nid = none → assocFind vm nid = none →
        generationStatus im vm nid = { status := "pending" }) ∧
    (∀ (nodes : List NodeData) (nid : String) (resp : StatusResponse) (n : NodeData)
        (u : String),
      findNode nodes nid = some n → resp.status = "success" → resp.resultUrl = some u →
        u ≠ "" →
        ∃ n2, findNode (checkStatus nodes nid resp) nid = some n2 ∧
          n2.status = NodeStatus.success ∧ n2.resultUrl = some u ∧
          n2.errorMessage = none) ∧
    (∀ (nodes : List NodeData) (nid : String) (resp : StatusResponse),
      checkStatus (checkStatus nodes nid resp) nid resp = checkStatus nodes nid resp) ∧
    (∀ (nodes : List NodeData) (nid : String) (resp : StatusResponse),
      resp.status = "success" → truthy resp.resultUrl = true →
        nid ∉ pollingIds (checkStatus nodes nid resp)) := by
  refine ⟨?_, ?_, ?_, ?_, ?_, ?_, ?_⟩
  · intro im vm nid
    cases h1 : assocFind im nid with
    | some f => simp [generationStatus, h1]
    | none =>
      cases h2 : assocFind vm nid with
      | some f => simp [generationStatus, h1, h2]
      | none => simp [generationStatus, h1, h2]
  · intro im vm nid f h
    simp [generationStatus, h]
  · intro im vm nid f h1 h2
    simp [generationStatus, h1, h2]
  · intro im vm nid h1 h2
    simp [generationStatus, h1, h2]
  · intro nodes nid resp n u h1 h2 h3 h4
    have hcond : (resp.status == "success" && truthy resp.resultUrl) = true := by
      rw [h2, h3]
      simp [truthy, h4]
    unfold checkStatus
    simp only [hcond, if_true]
    rw [findNode_updateNodeList, h1]
    refine ⟨_, rfl, rfl, ?_, rfl⟩
    show resp.resultUrl = some u
    exact h3
  · intro nodes nid resp
    unfold checkStatus
    by_cases hcond : (resp.status == "success" && truthy resp.resultUrl) = true
    · simp only [hcond, if_true]
      exact updateNodeList_idem nodes nid _
    · have hc' : (resp.status == "success" && truthy resp.resultUrl) = false := by
        simpa using hcond
      simp [hc']
  · intro nodes nid resp h1 h2
    have hcond : (resp.status == "success" && truthy resp.resultUrl) = true := by
      rw [h1, h2]
      simp
    unfold checkStatus pollingIds
    simp only [hcond, if_true]
    intro hmem
    simp only [List.mem_map, List.mem_filter] at hmem
    obtain ⟨n2, ⟨hn2mem, hload⟩, hid⟩ := hmem
    simp only [updateNodeList, List.mem_map] at hn2mem
    obtain ⟨n0, hn0, hn2eq⟩ := hn2mem
    by_cases h0 : (n0.id == nid) = true
    · rw [if_pos h0] at hn2eq
      rw [← hn2eq] at hload
      simp [applyUpdate] at hload
    · rw [if_neg h0] at hn2eq
      rw [← hn2eq] at hid
      rw [hid] at h0
      simp at h0

/-- C5 witness: the recovery theorem exercised on a concrete Loading node
whose image sidecar exists. -/
theorem c5_status_recovery_witness :
    (generationStatus c5meta [] "n5").status = "success" ∧
    (∃ n2, findNode (checkStatus [c5node] "n5" (generationStatus c5meta [] "n5")) "n5" =
        some n2 ∧
      n2.status = NodeStatus.success ∧ n2.resultUrl = some "/library/images/n5.png" ∧
      n2.errorMessage = none) ∧
    checkStatus (checkStatus [c5node] "n5" (generationStatus c5meta [] "n5")) "n5"
        (generationStatus c5meta [] "n5") =
      checkStatus [c5node] "n5" (generationStatus c5meta [] "n5") ∧
    "n5" ∉ pollingIds (checkStatus [c5node] "n5" (generationStatus c5meta [] "n5")) := by
  have H := c5_status_recovery
  refine ⟨(H.1 c5meta [] "n5").mpr (Or.inl (by decide)),
    H.2.2.2.2.1 [c5node] "n5" (generationStatus c5meta [] "n5") c5node "/library/images/n5.png"
      (by decide) (by decide) (by decide) (by decide),
    H.2.2.2.2.2.1 [c5node] "n5" (generationStatus c5meta [] "n5"),
    H.2.2.2.2.2.2 [c5node] "n5" (generationStatus c5meta [] "n5") (by decide) (by decide)⟩

/-- C6 counterexample: the claim says a `hailuo-` model id routes to the
Hailuo adapter for every generation request, but the image route only
recognizes `kling-` and `gpt-image-` — an image request with a `hailuo-`
model id falls through to the Gemini default. -/
theorem c6_provider_prefix_counterexample :
    selectImageProvider (some "hailuo-02") = Provider.gemini ∧
    Provider.gemini ≠ Provider.hailuo := by
  exact ⟨by decide, by decide⟩

/-- C6 (amended): provider selection is per endpoint. Image requests:
`kling-` to Kling, else `gpt-image-` to OpenAI, else Gemini. Video
requests: `kling-` to Kling — except `kling-v2-6` with a truthy motion
reference, which goes to the fal.ai motion-control service — else
`hailuo-` to Hailuo, else Veo (Gemini). -/
theorem c6_provider_dispatch_amended :
    (∀ m : String, headMatches m.toList "kling-".toList = true →
      selectImageProvider (some m) = Provider.kling) ∧
    (∀ m : String, headMatches m.toList "kling-".toList = false →
      headMatches m.toList "gpt-image-".toList = true →
      selectImageProvider (some m) = Provider.openai) ∧
    (∀ m : String, headMatches m.toList "kling-".toList = false →
      headMatches m.toList "gpt-image-".toList = false →
      selectImageProvider (some m) = Provider.gemini) ∧
    (∀ (m : String) (mref : Option String), headMatches m.toList "kling-".toList = true →
      (m == "kling-v2-6" && truthy mref) = false →
      selectVideoProvider (some m) mref = Provider.kling) ∧
    (∀ mref : Option String, truthy mref = true →
      selectVideoProvider (some "kling-v2-6") mref = Provider.fal) ∧
    (∀ (m : String) (mref : Option String), headMatches m.toList "kling-".toList = false →
      headMatches m.toList "hailuo-".toList = true →
      selectVideoProvider (some m) mref = Provider.hailuo) ∧
    (∀ (m : String) (mref : Option String), headMatches m.toList "kling-".toList = false →
      headMatches m.toList "hailuo-".toList = false →
      selectVideoProvider (some m) mref = Provider.gemini) := by
  refine ⟨?_, ?_, ?_, ?_, ?_, ?_, ?_⟩
  · intro m h
    simp only [selectImageProvider]
    rw [h]
    simp
  · intro m h1 h2
    simp only [selectImageProvider]
    rw [h1, h2]
    simp
  · intro m h1 h2
    simp only [selectImageProvider]
    rw [h1, h2]
    simp
  · intro m mref h1 h2
    simp only [selectVideoProvider]
    rw [h1, h2]
    simp
  · intro mref h
    have hk : headMatches "kling-v2-6".toList "kling-".toList = true := by decide
    simp only [selectVideoProvider]
    rw [hk, h]
    simp
  · intro m mref h1 h2
    simp only [selectVideoProvider]
    rw [h1, h2]
    simp
  · intro m mref h1 h2
    simp only [selectVideoProvider]
    rw [h1, h2]
    simp

/-- C6 witness: the amended dispatch table at the spec's example model
ids, plus the hailuo video case. -/
theorem c6_provider_dispatch_witness :
    selectImageProvider (some "kling-v2-1") = Provider.kling ∧
    selectImageProvider (some "gpt-image-1.5") = Provider.openai ∧
    selectVideoProvider (some "veo-3.1-fast") none = Provider.gemini ∧
    selectVideoProvider (some "hailuo-02") none = Provider.hailuo := by
  have H := c6_provider_dispatch_amended
  exact ⟨H.1 "kling-v2-1" (by decide),
    H.2.1 "gpt-image-1.5" (by decide) (by decide),
    H.2.2.2.2.2.2 "veo-3.1-fast" none (by decide) (by decide),
    H.2.2.2.2.2.1 "hailuo-02" none (by decide) (by decide)⟩

/-- C7: with more than one resolved subject image, the Kling image route
issues exactly one multi-image call (not repeated single-image calls),
whose subject list is capped at 4; with one or zero images (or none
supplied) the single-image path is used. -/
theorem c7_kling_multi_image :
    (∀ imgs : List String, 1 < imgs.length →
      klingImageRoute (some imgs) = KlingImageCall.multi imgs ∧
        (klingSubjectImageList imgs).length ≤ 4) ∧
    (∀ imgs : List String, imgs.length ≤ 1 →
      klingImageRoute (some imgs) = KlingImageCall.single (some imgs)) ∧
    klingImageRoute none = KlingImageCall.single none := by
  refine ⟨fun imgs h => ⟨?_, ?_⟩, fun imgs h => ?_, rfl⟩
  · simp [klingImageRoute, h]
  · unfold klingSubjectImageList
    rw [List.length_take]
    exact min_le_left _ _
  · have h' : ¬(imgs.length > 1) := by omega
    simp [klingImageRoute, h']

/-- C7 witness: three subject images trigger the multi-image path with a
subject list of at most 4. -/
theorem c7_kling_multi_image_witness :
    klingImageRoute (some ["a", "b", "c"]) = KlingImageCall.multi ["a", "b", "c"] ∧
    (klingSubjectImageList ["a", "b", "c"]).length ≤ 4 :=
  c7_kling_multi_image.1 ["a", "b", "c"] (by decide)

/-- C8: last-frame extraction is attempted at most once per node per
process lifetime — a node already in the attempted set is never a
candidate again, an effect run only ever grows the attempted set (also
when extraction fails), extraction never alters any node's status, and an
id is removed from the attempted set only when no node with that id
remains in the graph. -/
theorem c8_frame_extraction_once :
    (∀ (nodes : List NodeData) (attempted : List String) (id : String),
      id ∈ attempted → id ∉ (extractionCandidates nodes attempted).map (fun n => n.id)) ∧
    (∀ (nodes : List NodeData) (attempted : List String) (extract : String → Option String)
        (id : String),
      id ∈ attempted → id ∈ (runExtractionPass nodes attempted extract).2) ∧
    (∀ (nodes : List NodeData) (attempted : List String) (extract : String → Option String)
        (n : NodeData),
      n ∈ extractionCandidates nodes attempted →
        n.id ∈ (runExtractionPass nodes attempted extract).2) ∧
    (∀ (nodes : List NodeData) (attempted : List String) (extract : String → Option String),
      ((runExtractionPass nodes attempted extract).1).map (fun n => n.status) =
        nodes.map (fun n => n.status)) ∧
    (∀ (nodes : List NodeData) (attempted : List String) (id : String),
      id ∈ attempted → id ∉ pruneAttempted nodes attempted →
        ∀ n ∈ nodes, n.id ≠ id) := by
  refine ⟨?_, ?_, ?_, ?_, ?_⟩
  · intro nodes attempted id hmem hin
    simp only [extractionCandidates, List.mem_map, List.mem_filter] at hin
    obtain ⟨n, ⟨hn, hneed⟩, hid⟩ := hin
    unfold needsExtraction at hneed
    simp at hneed
    rw [← hid] at hmem
    exact hneed.2 hmem
  · intro nodes attempted extract id hmem
    simp only [runExtractionPass]
    exact List.mem_append_left _ hmem
  · intro nodes attempted extract n hn
    simp only [runExtractionPass]
    exact List.mem_append_right _ (List.mem_map.mpr ⟨n, hn, rfl⟩)
  · intro nodes attempted extract
    simp only [runExtractionPass]
    exact map_status_extraction_foldl extract (extractionCandidates nodes attempted) nodes
  · intro nodes attempted id hmem hnotin n hn heq
    apply hnotin
    simp only [pruneAttempted, List.mem_filter]
    refine ⟨hmem, ?_⟩
    simp only [List.any_eq_true]
    exact ⟨n, hn, by rw [heq]; simp⟩

/-- C8 witness: a completed video node whose id is already in the
attempted set is not re-attempted, stays recorded after a failing pass,
and its status is untouched. -/
theorem c8_frame_extraction_once_witness :
    "v8" ∉ (extractionCandidates [c8node] ["v8"]).map (fun n => n.id) ∧
    "v8" ∈ (runExtractionPass [c8node] ["v8"] (fun _ => none)).2 ∧
    ((runExtractionPass [c8node] ["v8"] (fun _ => none)).1).map (fun n => n.status) =
      [NodeStatus.success] := by
  have H := c8_frame_extraction_once
  refine ⟨H.1 [c8node] ["v8"] "v8" (by decide),
    H.2.1 [c8node] ["v8"] (fun _ => none) "v8" (by decide), ?_⟩
  have h := H.2.2.2.1 [c8node] ["v8"] (fun _ => none)
  rw [h]
  rfl

/-- C9 counterexample: the claim says an existing coverUrl is preserved
"unless the caller explicitly supplies a new one", but the save route
copies the existing cover over the payload unconditionally — a save that
explicitly supplies a new cover still persists the old one. -/
theorem c9_cover_preserve_counterexample :
    c9wfY.coverUrl = some "/library/assets/y.png" ∧
    (assocFind (saveWorkflow c9store1 c9wfY "t1" "u1") "w9").map (fun w => w.coverUrl) =
      some (some "/library/assets/x.png") ∧
    ("/library/assets/x.png" : String) ≠ "/library/assets/y.png" := by
  exact ⟨rfl, by decide, by decide⟩

/-- C9 (amended): a truthy coverUrl already persisted for the workflow id
is always preserved across `POST /api/workflows` saves, whether or not
the caller supplies a new one (a new cover can take effect only when the
persisted record has none, or via the dedicated cover endpoint); in
particular saving again without a cover retains the stored one. -/
theorem c9_cover_preserve_amended (store : List (String × Workflow)) (wf : Workflow)
    (now newId id : String) (existing : Workflow) (c : String)
    (hid : wf.id = some id) (hid2 : id ≠ "")
    (hex : assocFind store id = some existing)
    (hcov : existing.coverUrl = some c) (hc : c ≠ "") :
    ∃ final, assocFind (saveWorkflow store wf now newId) id = some final ∧
      final.coverUrl = some c := by
  have h1 : (id != "") = true := by simpa using hid2
  have hc1 : (c != "") = true := by simpa using hc
  simp only [saveWorkflow, hid, h1, if_true, hex, hcov, hc1]
  exact ⟨_, assocFind_storeInsert store id _, rfl⟩

/-- C9 witness: the scenario — first save stores the cover, a second save
without a cover retains it. -/
theorem c9_cover_preserve_witness :
    ∃ final, assocFind (saveWorkflow c9store1 c9wfNone "t1" "u1") "w9" = some final ∧
      final.coverUrl = some "/library/assets/x.png" :=
  c9_cover_preserve_amended c9store1 c9wfNone "t1" "u1" "w9" c9stored
    "/library/assets/x.png" rfl (by decide) (by decide) rfl (by decide)

/-- C10 counterexample: the dispatcher's transition into Loading is the
bare update `{ status: LOADING }` — it does not clear errorMessage, so a
regenerating Error node is Loading with its old errorMessage still
populated, contradicting "populated only on Error, cleared when a new
generation attempt starts". -/
theorem c10_error_clear_counterexample :
    (handleGenerate [c10node] "n10" (Except.ok "u") "").head? =
      some (GenAction.update "n10" loadingUpdate) ∧
    findNode (applyActions [c10node] [GenAction.update "n10" loadingUpdate]) "n10" =
      some { c10node with status := NodeStatus.loading } ∧
    ({ c10node with status := NodeStatus.loading } : NodeData).errorMessage =
      some "old failure" := by
  exact ⟨by decide, by decide, rfl⟩

/-- C10 (amended): errorMessage is written on the transition to Error,
but starting a new generation does not clear it — the Loading update
leaves any previous errorMessage in place (it is only overwritten by the
next Error update, or cleared by the recovery path on Success). -/
theorem c10_error_message_amended (nodes : List NodeData) (id : String)
    (outcome : Except GenError String) (frame : String) (n : NodeData)
    (h1 : findNode nodes id = some n) (h2 : n.prompt ≠ "") :
    (∃ rest, handleGenerate nodes id outcome frame =
      GenAction.update id loadingUpdate :: rest) ∧
    (∀ m : NodeData, (applyUpdate m loadingUpdate).errorMessage = m.errorMessage) ∧
    (∀ m : NodeData, (applyUpdate m loadingUpdate).status = NodeStatus.loading) ∧
    (∃ n2, findNode (updateNodeList nodes id loadingUpdate) id = some n2 ∧
      n2.status = NodeStatus.loading ∧ n2.errorMessage = n.errorMessage) := by
  refine ⟨?_, fun m => rfl, fun m => rfl, ?_⟩
  · have hp' : (n.prompt == "") = false := by simpa using h2
    unfold handleGenerate
    rw [h1]
    simp only [hp', Bool.false_eq_true, if_false]
    exact ⟨_, rfl⟩
  · rw [findNode_updateNodeList, h1]
    exact ⟨_, rfl, rfl, rfl⟩

/-- C10 witness: a concrete Error node regenerating — while Loading its
old errorMessage is still present. -/
theorem c10_error_message_witness :
    ∃ n2, findNode (updateNodeList [c10wnode] "m10" loadingUpdate) "m10" = some n2 ∧
      n2.status = NodeStatus.loading ∧ n2.errorMessage = some "stale" := by
  have h := (c10_error_message_amended [c10wnode] "m10" (Except.ok "u") "" c10wnode
    (by decide) (by decide)).2.2.2
  obtain ⟨n2, hf, hs, he⟩ := h
  exact ⟨n2, hf, hs, by rw [he]; rfl⟩

end TwitCanva
